import Mathlib

/-!
# Server.js: the AI influencer service

A shallow embedding of `src/Server.js`: the class `AIInfluencerManager`
(five methods, each one outbound call wrapped in `try`/`catch`) and the two
Express route handlers `POST /generate-post` and `POST /interact`.

Modelling decisions

* An `async` method is a function that returns its completion (`Except`:
  `.error` for a rejected promise or a thrown value, `.ok` for the value
  returned) paired with the list of outbound calls it issued, in order.
* The remote services (the two generative models, the Twitter client) and
  the engine built-in `JSON.parse` are not code of this repository: they are
  the fields of `World`, and theorems quantify over every `World`.
  Within one request no remote operation is invoked twice with the same
  arguments (`prompts_distinct`), so a function of the arguments describes
  every possible behaviour of the services during that request.
* `console.error` only writes to the log and is left out, and so is the
  `errorHandler` middleware: both handlers catch every error themselves.
* `res.json` is taken to succeed; a response is its status and its body.
* JavaScript strings are Lean strings (sequences of Unicode scalar values).
-/

namespace Server

/-! ## JavaScript values -/

/-- A thrown JavaScript value. -/
structure JsError where
  name : String
  message : String
deriving DecidableEq, Repr

/-- The values `JSON.parse` produces, which are also the values a request
body parsed by `express.json()` is made of.  A number is represented by the
text `Number::toString` gives for it (numbers are never computed with here,
only converted to text).  The properties of an object are listed in
enumeration order, each key once. -/
inductive Json where
  | null
  | bool (b : Bool)
  | num (text : String)
  | str (s : String)
  | arr (items : List Json)
  | obj (props : List (String × Json))
deriving Repr

/-- A value handed around at run time: `undefined`, a JSON-like value, or a
byte buffer (image data). -/
inductive JsVal where
  | undefined
  | json (j : Json)
  | bytes (data : List Nat)
deriving Repr

/-- ToBoolean on JSON-like values: `null`, `false`, `0`, `NaN` and `""`
are falsy, every array and object is truthy. -/
def Json.truthy : Json → Bool
  | .null => false
  | .bool b => b
  | .num t => !(t == "0" || t == "NaN")
  | .str s => !(s == "")
  | .arr _ => true
  | .obj _ => true

/-- ToBoolean, the test behind `if (x)` and `!!x`. -/
def JsVal.truthy : JsVal → Bool
  | .undefined => false
  | .json j => j.truthy
  | .bytes _ => true

/-- The `TypeError` of OrdinaryToPrimitive. -/
def toPrimitiveError : JsError :=
  ⟨"TypeError", "Cannot convert object to primitive value"⟩

/-- Whether an object has an own property with the given key. -/
def hasOwn (props : List (String × Json)) (key : String) : Bool :=
  props.any (fun p => p.1 == key)

mutual
/-- ToString on a JSON-like value, as a template literal applies it to a
substitution.  An array goes through `Array.prototype.join`.  An object
without an own `toString` property goes through `Object.prototype.toString`;
with one (never callable in parsed JSON) OrdinaryToPrimitive falls through to
`valueOf`, which yields no primitive either, and a `TypeError` is thrown. -/
def Json.toStr : Json → Except JsError String
  | .null => .ok "null"
  | .bool b => .ok (if b then "true" else "false")
  | .num t => .ok t
  | .str s => .ok s
  | .arr items => Json.joinStr items
  | .obj props =>
    if hasOwn props "toString" then .error toPrimitiveError
    else .ok "[object Object]"
/-- The loop of `Array.prototype.join` with the default separator: `null`
contributes the empty string, any other element its ToString. -/
def Json.joinStr : List Json → Except JsError String
  | [] => .ok ""
  | x :: rest =>
    match (match x with
           | .null => Except.ok ""
           | y => Json.toStr y) with
    | .error e => .error e
    | .ok s =>
      match rest with
      | [] => .ok s
      | _ :: _ =>
        match Json.joinStr rest with
        | .error e => .error e
        | .ok r => .ok (s ++ "," ++ r)
end

/-- ToString on a value read from the request body; `none` is `undefined`. -/
def toStr : Option Json → Except JsError String
  | none => .ok "undefined"
  | some j => j.toStr

/-- One UTF-16 code unit below 0x20 as the escape `\uXXXX` of
QuoteJSONString (lowercase hexadecimal, four digits). -/
def unicodeEscape (n : Nat) : String :=
  let ds := Nat.toDigits 16 n
  "\\u" ++ String.mk (List.replicate (4 - ds.length) '0' ++ ds)

/-- The escape QuoteJSONString emits for one character: the short escapes
for backspace (8), tab (9), line feed (10), form feed (12), carriage return
(13), the double quote (34) and the backslash (92), the `\uXXXX` form for the
other characters below 32, and the character itself otherwise. -/
def quoteChar (c : Char) : String :=
  if c.toNat = 8 then "\\b"
  else if c.toNat = 9 then "\\t"
  else if c.toNat = 10 then "\\n"
  else if c.toNat = 12 then "\\f"
  else if c.toNat = 13 then "\\r"
  else if c.toNat = 34 then "\\\""
  else if c.toNat = 92 then "\\\\"
  else if c.toNat < 32 then unicodeEscape c.toNat
  else String.singleton c

/-- QuoteJSONString. -/
def quoteJSONString (s : String) : String :=
  "\"" ++ String.join (s.toList.map quoteChar) ++ "\""

mutual
/-- The built-in `JSON.stringify(value)` with no replacer and no indent, on
JSON-like values (where it always yields a string). -/
def JSON_stringify : Json → String
  | .null => "null"
  | .bool b => if b then "true" else "false"
  | .num t => if t == "NaN" || t == "Infinity" || t == "-Infinity" then "null" else t
  | .str s => quoteJSONString s
  | .arr items => "[" ++ stringifyItems items ++ "]"
  | .obj props => "\x7b" ++ stringifyProps props ++ "\x7d"
/-- The elements of an array, separated by commas. -/
def stringifyItems : List Json → String
  | [] => ""
  | [x] => JSON_stringify x
  | x :: y :: rest => JSON_stringify x ++ "," ++ stringifyItems (y :: rest)
/-- The properties of an object, separated by commas. -/
def stringifyProps : List (String × Json) → String
  | [] => ""
  | [(k, v)] => quoteJSONString k ++ ":" ++ JSON_stringify v
  | (k, v) :: q :: rest =>
    quoteJSONString k ++ ":" ++ JSON_stringify v ++ "," ++ stringifyProps (q :: rest)
end

/-! ## The outside world -/

/-- The argument of `twitterClient.v2.tweet`: `{ text }` or
`{ text, media: { media_ids } }`. -/
structure TweetPayload where
  text : Json
  media_ids : Option (List JsVal)
deriving Repr

/-- An outbound call, with its arguments. -/
inductive Call where
  | textModel_generateContent (prompt : String)
  | imageModel_generateContent (prompt : String)
  | uploadMedia (buffer : JsVal) (mimeType : String)
  | tweet (payload : TweetPayload)
deriving Repr

/-- What the code does not define: the outcome of each remote call as a
function of its arguments (`.error` is a rejected promise or a throw while
the result is read, `.ok` the value read from the result), and the engine
built-in `JSON.parse`. -/
structure World where
  /-- The outcome of `textModel.generateContent(prompt)` followed by
  `result.response.text()`. -/
  textModel_generateContent : String → Except JsError String
  /-- The outcome of `imageModel.generateContent(prompt)` followed by
  `result.response.image()`. -/
  imageModel_generateContent : String → Except JsError JsVal
  /-- The outcome of `twitterClient.v1.uploadMedia(buffer, { mimeType })`. -/
  uploadMedia : JsVal → String → Except JsError JsVal
  /-- The outcome of `twitterClient.v2.tweet(payload)`. -/
  tweet : TweetPayload → Except JsError JsVal
  /-- The built-in `JSON.parse(text)`. -/
  JSON_parse : String → Except JsError Json

/-- The completion of an `async` method together with the outbound calls
it issued, in order. -/
abbrev Run (α : Type) := Except JsError α × List Call

/-! ## AIInfluencerManager -/

/-- The record `this.persona`. -/
structure Persona where
  name : String
  age : Nat
  profession : String
  interests : List String
  communicationStyle : String

/-- The persona set in the constructor. -/
def persona : Persona where
  name := "Nova Anderson"
  age := 28
  profession := "Tech Innovation Consultant"
  interests := ["Sustainable Technology", "Digital Wellness", "Future of Work", "AI Ethics"]
  communicationStyle := "Professional yet approachable, with a hint of tech humor"

/-- The method `Array.prototype.join(separator)` on an array of strings. -/
def join (xs : List String) (separator : String) : String :=
  separator.intercalate xs

/-- The template literal `prompt` of `generatePersonaContent`, after the
substitution `context` has been converted to a string. -/
def contentPrompt (context : String) : String :=
  "Create a social media post about " ++ context ++ " from the perspective of "
    ++ persona.name ++ ", a " ++ persona.profession ++ " interested in "
    ++ join persona.interests ", "

/-- The template literal `imagePrompt` of `generatePostImage`. -/
def imagePrompt (contentDescription : String) : String :=
  "Professional headshot of a diverse tech professional in a modern workspace, representing "
    ++ contentDescription

/-- The template literal `prompt` of `generateInteractiveResponse` (its
line breaks and indentation are part of the text). -/
def interactionPrompt (userMessage userContext : String) : String :=
  "You are " ++ persona.name ++ ", a " ++ persona.profession ++ ". \n"
    ++ "        Respond to the following message: \x27" ++ userMessage ++ "\x27\n"
    ++ "        \n"
    ++ "        Context Details:\n"
    ++ "        - User\x27s message context: " ++ userContext ++ "\n"
    ++ "        - Maintain a " ++ persona.communicationStyle ++ " tone\n"
    ++ "        - Reference your professional interests: " ++ join persona.interests ", "

/-- The template literal `contextAnalysisPrompt` of `analyzeUserContext`. -/
def contextAnalysisPrompt (userMessage : String) : String :=
  "Analyze the following message and extract key contextual information:\n"
    ++ "        \n"
    ++ "        Message: " ++ userMessage ++ "\n"
    ++ "        \n"
    ++ "        Provide insights on:\n"
    ++ "        - Emotional tone\n"
    ++ "        - Primary intent\n"
    ++ "        - Potential user interests\n"
    ++ "        - Suggested response approach"

/-- The method `generatePersonaContent(context)`.  The prompt is built
before the `try`, so a failing string conversion rejects the promise; inside
the `try` every error is caught and `null` is returned. -/
def generatePersonaContent (w : World) (context : Option Json) : Run Json :=
  match toStr context with
  | .error e => (.error e, [])
  | .ok c =>
    let prompt := contentPrompt c
    match w.textModel_generateContent prompt with
    | .ok text => (.ok (.str text), [.textModel_generateContent prompt])
    | .error _ => (.ok .null, [.textModel_generateContent prompt])

/-- The method `generatePostImage(contentDescription)`. -/
def generatePostImage (w : World) (contentDescription : Option Json) : Run JsVal :=
  match toStr contentDescription with
  | .error e => (.error e, [])
  | .ok d =>
    let prompt := imagePrompt d
    match w.imageModel_generateContent prompt with
    | .ok image => (.ok image, [.imageModel_generateContent prompt])
    | .error _ => (.ok (.json .null), [.imageModel_generateContent prompt])

/-- The method `postToTwitter(textContent, imageBuffer = null)`: the whole
body is inside the `try`. -/
def postToTwitter (w : World) (textContent : Json) (imageBuffer : JsVal) : Run JsVal :=
  let imageBuffer := match imageBuffer with
    | .undefined => JsVal.json .null
    | v => v
  if imageBuffer.truthy then
    match w.uploadMedia imageBuffer "image/png" with
    | .error _ => (.ok (.json .null), [.uploadMedia imageBuffer "image/png"])
    | .ok mediaId =>
      let payload : TweetPayload := ⟨textContent, some [mediaId]⟩
      match w.tweet payload with
      | .ok result => (.ok result, [.uploadMedia imageBuffer "image/png", .tweet payload])
      | .error _ => (.ok (.json .null), [.uploadMedia imageBuffer "image/png", .tweet payload])
  else
    let payload : TweetPayload := ⟨textContent, none⟩
    match w.tweet payload with
    | .ok result => (.ok result, [.tweet payload])
    | .error _ => (.ok (.json .null), [.tweet payload])

/-- The method `generateInteractiveResponse(userMessage, userContext)`. -/
def generateInteractiveResponse (w : World) (userMessage userContext : Option Json) :
    Run Json :=
  match toStr userMessage with
  | .error e => (.error e, [])
  | .ok m =>
    match toStr userContext with
    | .error e => (.error e, [])
    | .ok c =>
      let prompt := interactionPrompt m c
      match w.textModel_generateContent prompt with
      | .ok text => (.ok (.str text), [.textModel_generateContent prompt])
      | .error _ => (.ok .null, [.textModel_generateContent prompt])

/-- The method `analyzeUserContext(userMessage)`: the remote call and
`JSON.parse` are both inside the `try`. -/
def analyzeUserContext (w : World) (userMessage : Option Json) : Run Json :=
  match toStr userMessage with
  | .error e => (.error e, [])
  | .ok m =>
    let prompt := contextAnalysisPrompt m
    match w.textModel_generateContent prompt with
    | .error _ => (.ok .null, [.textModel_generateContent prompt])
    | .ok text =>
      match w.JSON_parse text with
      | .ok analysis => (.ok analysis, [.textModel_generateContent prompt])
      | .error _ => (.ok .null, [.textModel_generateContent prompt])

/-! ## The route handlers -/

/-- The body handed to `res.json`. -/
inductive ResBody where
  | postResult (content : Json) (imageGenerated : Bool) (tweetPosted : Bool)
  | interaction (response : Json) (contextAnalysis : Json)
  | error (error : String)
deriving Repr

/-- What a handler sends: `res.json(body)` has status 200,
`res.status(500).json(body)` status 500. -/
structure HttpResponse where
  status : Nat
  body : ResBody
deriving Repr

/-- Reading one property in a destructuring `const { key } = req.body`;
`none` as a body or as a result is `undefined`.  Destructuring `undefined`
or `null` throws; a value that is not an object, or has no such property,
gives `undefined`. -/
def getProp (body : Option Json) (key : String) : Except JsError (Option Json) :=
  match body with
  | none => .error ⟨"TypeError", "Cannot destructure property of undefined"⟩
  | some .null => .error ⟨"TypeError", "Cannot destructure property of null"⟩
  | some (.obj props) => .ok (props.lookup key)
  | some _ => .ok none

/-- The handler of `POST /generate-post`, applied to `req.body`. -/
def route_generate_post (w : World) (body : Option Json) : HttpResponse × List Call :=
  match getProp body "context" with
  | .error _ => (⟨500, .error "Post generation failed"⟩, [])
  | .ok context =>
    match generatePersonaContent w context with
    | (.error _, t1) => (⟨500, .error "Post generation failed"⟩, t1)
    | (.ok content, t1) =>
      match generatePostImage w context with
      | (.error _, t2) => (⟨500, .error "Post generation failed"⟩, t1 ++ t2)
      | (.ok image, t2) =>
        match postToTwitter w content image with
        | (.error _, t3) => (⟨500, .error "Post generation failed"⟩, t1 ++ t2 ++ t3)
        | (.ok tweetResult, t3) =>
          (⟨200, .postResult content image.truthy tweetResult.truthy⟩, t1 ++ t2 ++ t3)

/-- The handler of `POST /interact`, applied to `req.body`. -/
def route_interact (w : World) (body : Option Json) : HttpResponse × List Call :=
  match getProp body "userMessage" with
  | .error _ => (⟨500, .error "Interaction failed"⟩, [])
  | .ok userMessage =>
    match getProp body "userContext" with
    | .error _ => (⟨500, .error "Interaction failed"⟩, [])
    | .ok _userContext =>
      match analyzeUserContext w userMessage with
      | (.error _, t1) => (⟨500, .error "Interaction failed"⟩, t1)
      | (.ok contextAnalysis, t1) =>
        match generateInteractiveResponse w userMessage
            (some (.str (JSON_stringify contextAnalysis))) with
        | (.error _, t2) => (⟨500, .error "Interaction failed"⟩, t1 ++ t2)
        | (.ok response, t2) =>
          (⟨200, .interaction response contextAnalysis⟩, t1 ++ t2)

/-! ## Reading outcomes -/

/-- What a `try { return text } catch { return null }` wrapper returns for
the outcome of a text call: the text, or `null`. -/
def textOrNull (o : Except JsError String) : Json :=
  match o with
  | .ok text => .str text
  | .error _ => .null

/-- What such a wrapper returns for the outcome of a call that yields a
run-time value: the value, or `null`. -/
def valueOrNull (o : Except JsError JsVal) : JsVal :=
  match o with
  | .ok v => v
  | .error _ => .json .null

/-- Occurrence of `part` as a contiguous substring of `s`. -/
def containsStr (s part : String) : Prop :=
  part.toList <:+: s.toList

instance (s part : String) : Decidable (containsStr s part) := by
  unfold containsStr
  infer_instance

/-! ## Scenario worlds -/

/-- Every remote call and every parse fails. -/
def downWorld : World where
  textModel_generateContent := fun _ => .error ⟨"Error", "fetch failed"⟩
  imageModel_generateContent := fun _ => .error ⟨"Error", "fetch failed"⟩
  uploadMedia := fun _ _ => .error ⟨"ApiRequestError", "Request failed"⟩
  tweet := fun _ => .error ⟨"ApiRequestError", "Request failed"⟩
  JSON_parse := fun _ => .error ⟨"SyntaxError", "Unexpected token"⟩

/-- Both generative models fail while the Twitter client accepts every
tweet and answers with the post id `p1`. -/
def tweetOnlyWorld : World where
  textModel_generateContent := fun _ => .error ⟨"Error", "fetch failed"⟩
  imageModel_generateContent := fun _ => .error ⟨"Error", "fetch failed"⟩
  uploadMedia := fun _ _ => .error ⟨"ApiRequestError", "Request failed"⟩
  tweet := fun _ => .ok (.json (.obj [("data", .obj [("id", .str "p1")])]))
  JSON_parse := fun _ => .error ⟨"SyntaxError", "Unexpected token"⟩

/-- The text model answers `Hello world`, the image model answers with a
three-byte buffer, the upload yields the media id `m1` and the tweet the
post id `p1`. -/
def helloWorld : World where
  textModel_generateContent := fun _ => .ok "Hello world"
  imageModel_generateContent := fun _ => .ok (.bytes [137, 80, 78])
  uploadMedia := fun _ _ => .ok (.json (.str "m1"))
  tweet := fun _ => .ok (.json (.obj [("data", .obj [("id", .str "p1")])]))
  JSON_parse := fun _ => .error ⟨"SyntaxError", "Unexpected token"⟩

/-- The analysis text of the success scenario. -/
def praiseText : String :=
  "\x7b\"tone\":\"positive\",\"intent\":\"praise\",\"interests\":[],\"approach\":\"thank\"\x7d"

/-- The value that text decodes to. -/
def praiseAnalysis : Json :=
  .obj [("tone", .str "positive"), ("intent", .str "praise"), ("interests", .arr []),
    ("approach", .str "thank")]

/-- The values of `JSON.parse` at the texts the scenarios feed it: `null`
decodes to `null`, `praiseText` to `praiseAnalysis`, and `not json` (like
every text not listed here) is answered with a `SyntaxError`. -/
def scenarioParse (text : String) : Except JsError Json :=
  if text = "null" then .ok .null
  else if text = praiseText then .ok praiseAnalysis
  else .error ⟨"SyntaxError", "Unexpected token"⟩

/-- The text model answers the context-analysis prompt for the message
`I love this!` with `analysisText` and every other prompt with `Thanks!`. -/
def replyWorld (analysisText : String) : World where
  textModel_generateContent := fun prompt =>
    if prompt = contextAnalysisPrompt "I love this!" then .ok analysisText else .ok "Thanks!"
  imageModel_generateContent := fun _ => .error ⟨"Error", "fetch failed"⟩
  uploadMedia := fun _ _ => .error ⟨"ApiRequestError", "Request failed"⟩
  tweet := fun _ => .error ⟨"ApiRequestError", "Request failed"⟩
  JSON_parse := scenarioParse

/-- The request body of the Flow B scenarios. -/
def loveBody : Option Json :=
  some (.obj [("userMessage", .str "I love this!"), ("userContext", .str "a fan")])

set_option maxRecDepth 100000

/-! ## Auxiliary facts -/

theorem getProp_other (body : Option Json) (k k2 : String) (v : Option Json)
    (h : getProp body k = .ok v) : ∃ v2, getProp body k2 = .ok v2 := by
  unfold getProp at h ⊢
  split at h <;> simp_all

theorem toStr_str (s : String) : toStr (some (.str s)) = .ok s := by
  simp [toStr, Json.toStr]

/-- The two prompts Flow B sends to the text model never coincide (one
starts with `A`, the other with `Y`), so describing the text model by a
function of the prompt does not tie the two replies of one request together. -/
theorem prompts_distinct (m m2 c : String) :
    contextAnalysisPrompt m ≠ interactionPrompt m2 c := by
  intro h
  have h1 : (contextAnalysisPrompt m).data.head? = some 'A' := by
    simp only [contextAnalysisPrompt, String.data_append]
    rfl
  have h2 : (interactionPrompt m2 c).data.head? = some 'Y' := by
    simp only [interactionPrompt, String.data_append]
    rfl
  rw [h, h2] at h1
  simp at h1

theorem containsStr_mid (a part b : String) : containsStr (a ++ part ++ b) part := by
  unfold containsStr
  exact ⟨a.toList, b.toList, by simp [String.toList]⟩

theorem containsStr_of_eq (s a part b : String) (h : s = a ++ part ++ b) :
    containsStr s part := by
  subst h
  exact containsStr_mid a part b

theorem contentPrompt_eq (c : String) :
    contentPrompt c = "Create a social media post about " ++ c ++
      " from the perspective of Nova Anderson, a Tech Innovation Consultant interested in Sustainable Technology, Digital Wellness, Future of Work, AI Ethics" := by
  have h : " from the perspective of " ++ persona.name ++ ", a " ++ persona.profession
      ++ " interested in " ++ join persona.interests ", " =
      " from the perspective of Nova Anderson, a Tech Innovation Consultant interested in Sustainable Technology, Digital Wellness, Future of Work, AI Ethics" := by
    decide
  rw [← h]
  simp only [contentPrompt, String.append_assoc]

theorem interactionPrompt_eq (m u : String) :
    interactionPrompt m u =
      "You are Nova Anderson, a Tech Innovation Consultant. \n        Respond to the following message: \x27"
        ++ m ++
        "\x27\n        \n        Context Details:\n        - User\x27s message context: "
        ++ u ++
        "\n        - Maintain a Professional yet approachable, with a hint of tech humor tone\n        - Reference your professional interests: Sustainable Technology, Digital Wellness, Future of Work, AI Ethics" := by
  have hA : "You are " ++ persona.name ++ ", a " ++ persona.profession ++ ". \n"
      ++ "        Respond to the following message: \x27" =
      "You are Nova Anderson, a Tech Innovation Consultant. \n        Respond to the following message: \x27" := by
    decide
  have hB : "\x27\n" ++ "        \n" ++ "        Context Details:\n"
      ++ "        - User\x27s message context: " =
      "\x27\n        \n        Context Details:\n        - User\x27s message context: " := by
    decide
  have hC : "\n" ++ "        - Maintain a " ++ persona.communicationStyle ++ " tone\n"
      ++ "        - Reference your professional interests: " ++ join persona.interests ", " =
      "\n        - Maintain a Professional yet approachable, with a hint of tech humor tone\n        - Reference your professional interests: Sustainable Technology, Digital Wellness, Future of Work, AI Ethics" := by
    decide
  rw [← hA, ← hB, ← hC]
  simp only [interactionPrompt, String.append_assoc]

theorem contextAnalysisPrompt_eq (m : String) :
    contextAnalysisPrompt m =
      "Analyze the following message and extract key contextual information:\n        \n        Message: "
        ++ m ++
        "\n        \n        Provide insights on:\n        - Emotional tone\n        - Primary intent\n        - Potential user interests\n        - Suggested response approach" := by
  have hA : "Analyze the following message and extract key contextual information:\n"
      ++ "        \n" ++ "        Message: " =
      "Analyze the following message and extract key contextual information:\n        \n        Message: " := by
    decide
  have hB : "\n" ++ "        \n" ++ "        Provide insights on:\n"
      ++ "        - Emotional tone\n" ++ "        - Primary intent\n"
      ++ "        - Potential user interests\n" ++ "        - Suggested response approach" =
      "\n        \n        Provide insights on:\n        - Emotional tone\n        - Primary intent\n        - Potential user interests\n        - Suggested response approach" := by
    decide
  rw [← hA, ← hB]
  simp only [contextAnalysisPrompt, String.append_assoc]

theorem postToTwitter_ok (w : World) (text : Json) (image : JsVal) :
    ∃ r, (postToTwitter w text image).1 = .ok r := by
  unfold postToTwitter
  simp only []
  split
  · split
    · simp
    · split <;> simp
  · split <;> simp

/-! ## Flow A: `POST /generate-post` -/

/-- C1, as the claim states it, fails: with both generative models down
(so that content and image are `null`) and a Twitter client that accepts the
text-only tweet, the handler answers `tweetPosted: true`. -/
theorem generate_post_no_result_tweet_accepted :
    (generatePersonaContent tweetOnlyWorld (some (.str "AI"))).1 = .ok .null ∧
    (generatePostImage tweetOnlyWorld (some (.str "AI"))).1 = .ok (.json .null) ∧
    (route_generate_post tweetOnlyWorld (some (.obj [("context", .str "AI")]))).1
      = ⟨200, .postResult .null false true⟩ ∧
    (route_generate_post tweetOnlyWorld (some (.obj [("context", .str "AI")]))).1.body
      ≠ .postResult .null false false := by
  refine ⟨rfl, rfl, rfl, ?_⟩
  intro h
  have h2 : ResBody.postResult .null false true = .postResult .null false false := h
  simp at h2

/-- C1, amended: for every context string, if `generatePersonaContent` and
`generatePostImage` both yield `null`, the handler answers 200 with
`content: null`, `imageGenerated: false`, and `tweetPosted` equal to the
truthiness of what the text-only tweet of the text `null` returns (`false`
when that call fails). -/
theorem generate_post_no_result (w : World) (body : Option Json) (c : String)
    (hBody : getProp body "context" = .ok (some (.str c)))
    (hText : (generatePersonaContent w (some (.str c))).1 = .ok .null)
    (hImage : (generatePostImage w (some (.str c))).1 = .ok (.json .null)) :
    (route_generate_post w body).1 =
      ⟨200, .postResult .null false (valueOrNull (w.tweet ⟨.null, none⟩)).truthy⟩ := by
  unfold route_generate_post
  rw [hBody]
  simp only [generatePersonaContent, generatePostImage, toStr, Json.toStr] at hText hImage ⊢
  cases hT : w.textModel_generateContent (contentPrompt c) <;> rw [hT] at hText <;>
    cases hI : w.imageModel_generateContent (imagePrompt c) <;> rw [hI] at hImage <;>
    simp at hText hImage
  · simp [postToTwitter, JsVal.truthy, Json.truthy]
    cases hW : w.tweet ⟨.null, none⟩ <;> simp [JsVal.truthy, Json.truthy, valueOrNull]
  · subst hImage
    simp [postToTwitter, JsVal.truthy, Json.truthy]
    cases hW : w.tweet ⟨.null, none⟩ <;> simp [JsVal.truthy, Json.truthy, valueOrNull]

/-- Witness of C1 amended: everything down, all three fields negative. -/
theorem generate_post_no_result_witness :
    getProp (some (.obj [("context", .str "AI")])) "context" = .ok (some (.str "AI")) ∧
    (generatePersonaContent downWorld (some (.str "AI"))).1 = .ok .null ∧
    (generatePostImage downWorld (some (.str "AI"))).1 = .ok (.json .null) ∧
    (route_generate_post downWorld (some (.obj [("context", .str "AI")]))).1 =
      ⟨200, .postResult .null false false⟩ :=
  ⟨rfl, rfl, rfl,
    generate_post_no_result downWorld (some (.obj [("context", .str "AI")])) "AI" rfl rfl rfl⟩

/-- C3: for every context string and text `t`, if the text call returns
`t`, the image call returns a truthy image, the upload of that image succeeds
and the tweet carrying `t` and the media id returns a truthy post result, the
handler answers 200 with `content: t`, `imageGenerated: true`,
`tweetPosted: true`. -/
theorem generate_post_success (w : World) (body : Option Json) (c t : String)
    (image mediaId result : JsVal)
    (hBody : getProp body "context" = .ok (some (.str c)))
    (hText : w.textModel_generateContent (contentPrompt c) = .ok t)
    (hImage : w.imageModel_generateContent (imagePrompt c) = .ok image)
    (hTruthy : image.truthy = true)
    (hUpload : w.uploadMedia image "image/png" = .ok mediaId)
    (hTweet : w.tweet ⟨.str t, some [mediaId]⟩ = .ok result)
    (hResult : result.truthy = true) :
    (route_generate_post w body).1 = ⟨200, .postResult (.str t) true true⟩ := by
  unfold route_generate_post
  rw [hBody]
  simp only [generatePersonaContent, generatePostImage, toStr, Json.toStr, hText, hImage]
  cases image with
  | undefined => simp [JsVal.truthy] at hTruthy
  | json j => simp [postToTwitter, hTruthy, hUpload, hTweet, hResult]
  | bytes d => simp [postToTwitter, hTruthy, hUpload, hTweet, hResult]

/-- Witness of C3: the text `Hello world`, image bytes, post id `p1`. -/
theorem generate_post_success_witness :
    (route_generate_post helloWorld (some (.obj [("context", .str "AI")]))).1 =
      ⟨200, .postResult (.str "Hello world") true true⟩ :=
  generate_post_success helloWorld (some (.obj [("context", .str "AI")])) "AI" "Hello world"
    (.bytes [137, 80, 78]) (.json (.str "m1"))
    (.json (.obj [("data", .obj [("id", .str "p1")])])) rfl rfl rfl rfl rfl rfl rfl

/-- C9: for every context string and every outcome of the remote calls,
the handler issues the text call with the content prompt for the context,
then the image call with the image prompt for the same context, then exactly
the calls of `postToTwitter` applied to the text result (`null` on failure)
and the image result (`null` on failure); that last step issues at least one
call, and its result decides `tweetPosted`.  The content prompt is the
template text around the request context, and the image prompt is the
headshot template followed by the request context itself, so it is built from
the context of the request and not from the generated text. -/
theorem generate_post_call_sequence (w : World) (body : Option Json) (c : String)
    (hBody : getProp body "context" = .ok (some (.str c))) :
    contentPrompt c = "Create a social media post about " ++ c ++
      " from the perspective of Nova Anderson, a Tech Innovation Consultant interested in Sustainable Technology, Digital Wellness, Future of Work, AI Ethics" ∧
    imagePrompt c =
      "Professional headshot of a diverse tech professional in a modern workspace, representing "
        ++ c ∧
    (route_generate_post w body).2 =
      [Call.textModel_generateContent (contentPrompt c),
       Call.imageModel_generateContent (imagePrompt c)] ++
      (postToTwitter w (textOrNull (w.textModel_generateContent (contentPrompt c)))
        (valueOrNull (w.imageModel_generateContent (imagePrompt c)))).2 ∧
    (postToTwitter w (textOrNull (w.textModel_generateContent (contentPrompt c)))
        (valueOrNull (w.imageModel_generateContent (imagePrompt c)))).2 ≠ [] ∧
    ∃ tweetResult,
      (postToTwitter w (textOrNull (w.textModel_generateContent (contentPrompt c)))
        (valueOrNull (w.imageModel_generateContent (imagePrompt c)))).1 = .ok tweetResult ∧
      (route_generate_post w body).1 =
        ⟨200, .postResult (textOrNull (w.textModel_generateContent (contentPrompt c)))
          (valueOrNull (w.imageModel_generateContent (imagePrompt c))).truthy
          tweetResult.truthy⟩ := by
  have hPost : ∀ (text : Json) (image : JsVal),
      (postToTwitter w text image).2 ≠ [] ∧
        ∃ r, (postToTwitter w text image).1 = .ok r := by
    intro text image
    unfold postToTwitter
    simp only []
    split
    · split
      · simp
      · split <;> simp
    · split <;> simp
  refine ⟨contentPrompt_eq c, rfl, ?_⟩
  unfold route_generate_post
  rw [hBody]
  simp only [generatePersonaContent, generatePostImage, toStr, Json.toStr]
  cases hT : w.textModel_generateContent (contentPrompt c) <;>
    cases hI : w.imageModel_generateContent (imagePrompt c) <;>
    simp only [textOrNull, valueOrNull] <;>
    [obtain ⟨h1, r, h2⟩ := hPost .null (.json .null);
     obtain ⟨h1, r, h2⟩ := hPost .null ‹JsVal›;
     obtain ⟨h1, r, h2⟩ := hPost (.str ‹String›) (.json .null);
     obtain ⟨h1, r, h2⟩ := hPost (.str ‹String›) ‹JsVal›] <;>
    · refine ⟨?_, h1, r, h2, ?_⟩
      · generalize hp : postToTwitter w _ _ = p at h2 ⊢
        obtain ⟨p1, p2⟩ := p
        simp only at h2
        subst h2
        simp
      · generalize hp : postToTwitter w _ _ = p at h2 ⊢
        obtain ⟨p1, p2⟩ := p
        simp only at h2
        subst h2
        simp

/-- Witness of C9 on the all-succeeding scenario, for the context `AI`. -/
theorem generate_post_call_sequence_witness :
    getProp (some (.obj [("context", .str "AI")])) "context" = .ok (some (.str "AI")) ∧
    imagePrompt "AI" =
      "Professional headshot of a diverse tech professional in a modern workspace, representing "
        ++ "AI" ∧
    (route_generate_post helloWorld (some (.obj [("context", .str "AI")]))).2 =
      [Call.textModel_generateContent (contentPrompt "AI"),
       Call.imageModel_generateContent (imagePrompt "AI"),
       Call.uploadMedia (.bytes [137, 80, 78]) "image/png",
       Call.tweet ⟨.str "Hello world", some [.json (.str "m1")]⟩] :=
  ⟨rfl,
   (generate_post_call_sequence helloWorld (some (.obj [("context", .str "AI")])) "AI"
     rfl).2.1,
   (generate_post_call_sequence helloWorld (some (.obj [("context", .str "AI")])) "AI"
     rfl).2.2.1⟩

/-! ## The prompts -/

/-- C6: for every context string the content prompt contains the persona
name, each of the four interest tags, the four tags in their configured order
joined by a comma and a blank, the profession and the context itself; and it
is the prompt `generatePersonaContent` sends. -/
theorem contentPrompt_contains (c : String) :
    containsStr (contentPrompt c) "Nova Anderson" ∧
    containsStr (contentPrompt c) "Sustainable Technology" ∧
    containsStr (contentPrompt c) "Digital Wellness" ∧
    containsStr (contentPrompt c) "Future of Work" ∧
    containsStr (contentPrompt c) "AI Ethics" ∧
    containsStr (contentPrompt c)
      "Sustainable Technology, Digital Wellness, Future of Work, AI Ethics" ∧
    join persona.interests ", " =
      "Sustainable Technology, Digital Wellness, Future of Work, AI Ethics" ∧
    containsStr (contentPrompt c) "Tech Innovation Consultant" ∧
    containsStr (contentPrompt c) c ∧
    ∀ w : World, (generatePersonaContent w (some (.str c))).2 =
      [Call.textModel_generateContent (contentPrompt c)] := by
  have key : ∀ (b1 part b2 : String),
      " from the perspective of Nova Anderson, a Tech Innovation Consultant interested in Sustainable Technology, Digital Wellness, Future of Work, AI Ethics"
        = b1 ++ part ++ b2 → containsStr (contentPrompt c) part := by
    intro b1 part b2 h
    apply containsStr_of_eq _ ("Create a social media post about " ++ c ++ b1) part b2
    rw [contentPrompt_eq, h]
    simp only [String.append_assoc]
  refine ⟨?_, ?_, ?_, ?_, ?_, ?_, by decide, ?_, ?_, ?_⟩
  · exact key " from the perspective of " _
      ", a Tech Innovation Consultant interested in Sustainable Technology, Digital Wellness, Future of Work, AI Ethics"
      (by decide)
  · exact key " from the perspective of Nova Anderson, a Tech Innovation Consultant interested in "
      _ ", Digital Wellness, Future of Work, AI Ethics" (by decide)
  · exact key " from the perspective of Nova Anderson, a Tech Innovation Consultant interested in Sustainable Technology, "
      _ ", Future of Work, AI Ethics" (by decide)
  · exact key " from the perspective of Nova Anderson, a Tech Innovation Consultant interested in Sustainable Technology, Digital Wellness, "
      _ ", AI Ethics" (by decide)
  · exact key " from the perspective of Nova Anderson, a Tech Innovation Consultant interested in Sustainable Technology, Digital Wellness, Future of Work, "
      _ "" (by decide)
  · exact key " from the perspective of Nova Anderson, a Tech Innovation Consultant interested in "
      _ "" (by decide)
  · exact key " from the perspective of Nova Anderson, a " _
      " interested in Sustainable Technology, Digital Wellness, Future of Work, AI Ethics"
      (by decide)
  · apply containsStr_of_eq _ "Create a social media post about " c
      " from the perspective of Nova Anderson, a Tech Innovation Consultant interested in Sustainable Technology, Digital Wellness, Future of Work, AI Ethics"
    exact contentPrompt_eq c
  · intro w
    simp only [generatePersonaContent, toStr, Json.toStr]
    split <;> rfl

/-- C8: with the empty string as context or user message none of the four
methods throws, and the prompt each one sends is the template text with
nothing in the interpolated position. -/
theorem prompts_empty_input (w : World) :
    contentPrompt "" =
      "Create a social media post about  from the perspective of Nova Anderson, a Tech Innovation Consultant interested in Sustainable Technology, Digital Wellness, Future of Work, AI Ethics" ∧
    imagePrompt "" =
      "Professional headshot of a diverse tech professional in a modern workspace, representing " ∧
    contextAnalysisPrompt "" =
      "Analyze the following message and extract key contextual information:\n        \n        Message: \n        \n        Provide insights on:\n        - Emotional tone\n        - Primary intent\n        - Potential user interests\n        - Suggested response approach" ∧
    (∀ userContext : String, interactionPrompt "" userContext =
      "You are Nova Anderson, a Tech Innovation Consultant. \n        Respond to the following message: \x27\x27\n        \n        Context Details:\n        - User\x27s message context: "
        ++ userContext ++
        "\n        - Maintain a Professional yet approachable, with a hint of tech humor tone\n        - Reference your professional interests: Sustainable Technology, Digital Wellness, Future of Work, AI Ethics") ∧
    (∃ v, generatePersonaContent w (some (.str "")) =
      (.ok v, [Call.textModel_generateContent (contentPrompt "")])) ∧
    (∃ v, generatePostImage w (some (.str "")) =
      (.ok v, [Call.imageModel_generateContent (imagePrompt "")])) ∧
    (∃ v, analyzeUserContext w (some (.str "")) =
      (.ok v, [Call.textModel_generateContent (contextAnalysisPrompt "")])) ∧
    (∀ userContext : String, ∃ v,
      generateInteractiveResponse w (some (.str "")) (some (.str userContext)) =
        (.ok v, [Call.textModel_generateContent (interactionPrompt "" userContext)])) := by
  refine ⟨by decide, by decide, by decide, ?_, ?_, ?_, ?_, ?_⟩
  · intro u
    have h : "\n" ++ "        - Maintain a " ++ persona.communicationStyle ++ " tone\n"
        ++ "        - Reference your professional interests: " ++ join persona.interests ", " =
        "\n        - Maintain a Professional yet approachable, with a hint of tech humor tone\n        - Reference your professional interests: Sustainable Technology, Digital Wellness, Future of Work, AI Ethics" := by
      decide
    have h2 : "You are " ++ persona.name ++ ", a " ++ persona.profession ++ ". \n"
        ++ "        Respond to the following message: \x27" ++ "" ++ "\x27\n"
        ++ "        \n"
        ++ "        Context Details:\n"
        ++ "        - User\x27s message context: " =
        "You are Nova Anderson, a Tech Innovation Consultant. \n        Respond to the following message: \x27\x27\n        \n        Context Details:\n        - User\x27s message context: " := by
      decide
    rw [← h, ← h2]
    simp only [interactionPrompt, String.append_assoc]
  · simp only [generatePersonaContent, toStr, Json.toStr]
    split <;> exact ⟨_, rfl⟩
  · simp only [generatePostImage, toStr, Json.toStr]
    split <;> exact ⟨_, rfl⟩
  · simp only [analyzeUserContext, toStr, Json.toStr]
    split
    · exact ⟨_, rfl⟩
    · split <;> exact ⟨_, rfl⟩
  · intro u
    simp only [generateInteractiveResponse, toStr, Json.toStr]
    split <;> exact ⟨_, rfl⟩

/-! ## `postToTwitter` -/

/-- C5: with a truthy image (image bytes in particular) `postToTwitter`
first issues one upload of that image; if the upload yields a media id it
then issues one tweet that carries the text and that id, and returns the
tweet result, or `null` if the tweet fails; if the upload fails it issues
nothing else and returns `null`.  With the image `null` or omitted it issues
no upload and one text-only tweet of the text, and returns the tweet result,
or `null` if the tweet fails. -/
theorem postToTwitter_calls (w : World) (text : Json) (image : JsVal) :
    (∀ data, (JsVal.bytes data).truthy = true) ∧
    (image.truthy = true →
      (∀ mediaId, w.uploadMedia image "image/png" = .ok mediaId →
        postToTwitter w text image =
          (.ok (valueOrNull (w.tweet ⟨text, some [mediaId]⟩)),
           [Call.uploadMedia image "image/png", Call.tweet ⟨text, some [mediaId]⟩])) ∧
      (∀ e, w.uploadMedia image "image/png" = .error e →
        postToTwitter w text image =
          (.ok (.json .null), [Call.uploadMedia image "image/png"]))) ∧
    ((image = .undefined ∨ image = .json .null) →
      postToTwitter w text image =
        (.ok (valueOrNull (w.tweet ⟨text, none⟩)), [Call.tweet ⟨text, none⟩])) := by
  refine ⟨fun _ => rfl, ?_, ?_⟩
  · intro hTruthy
    cases image with
    | undefined => simp [JsVal.truthy] at hTruthy
    | json j =>
      constructor
      · intro mediaId hUpload
        simp only [postToTwitter, hTruthy, hUpload, if_true]
        cases hW : w.tweet ⟨text, some [mediaId]⟩ <;> simp [valueOrNull]
      · intro e hUpload
        simp only [postToTwitter, hTruthy, hUpload, if_true]
    | bytes d =>
      constructor
      · intro mediaId hUpload
        simp only [postToTwitter, hTruthy, hUpload, if_true]
        cases hW : w.tweet ⟨text, some [mediaId]⟩ <;> simp [valueOrNull]
      · intro e hUpload
        simp only [postToTwitter, hTruthy, hUpload, if_true]
  · intro hAbsent
    rcases hAbsent with h | h <;> subst h <;>
      simp only [postToTwitter, JsVal.truthy, Json.truthy] <;>
      cases hW : w.tweet ⟨text, none⟩ <;> simp [valueOrNull]

/-- Witness of C5: image bytes, an upload that yields `m1`, a tweet that
yields the post id `p1`. -/
theorem postToTwitter_calls_witness :
    postToTwitter helloWorld (.str "Hello world") (.bytes [137, 80, 78]) =
      (.ok (.json (.obj [("data", .obj [("id", .str "p1")])])),
       [Call.uploadMedia (.bytes [137, 80, 78]) "image/png",
        Call.tweet ⟨.str "Hello world", some [.json (.str "m1")]⟩]) ∧
    postToTwitter downWorld (.str "Hello world") (.bytes [137, 80, 78]) =
      (.ok (.json .null), [Call.uploadMedia (.bytes [137, 80, 78]) "image/png"]) ∧
    postToTwitter helloWorld (.str "Hello world") (.json .null) =
      (.ok (.json (.obj [("data", .obj [("id", .str "p1")])])),
       [Call.tweet ⟨.str "Hello world", none⟩]) :=
  ⟨((postToTwitter_calls helloWorld (.str "Hello world") (.bytes [137, 80, 78])).2.1 rfl).1
      (.json (.str "m1")) rfl,
   ((postToTwitter_calls downWorld (.str "Hello world") (.bytes [137, 80, 78])).2.1 rfl).2
      ⟨"ApiRequestError", "Request failed"⟩ rfl,
   (postToTwitter_calls helloWorld (.str "Hello world") (.json .null)).2.2 (Or.inr rfl)⟩

/-! ## Flow B: `POST /interact` -/

/-- C2, as the claim states it, fails: when the analysis text is `not
json` the handler answers exactly what it answers when the analysis text is
`null` (which parses to `null`), response and outbound calls alike; no parse
error is reported. -/
theorem interact_parse_failure_not_reported :
    (replyWorld "not json").JSON_parse "not json" = .error ⟨"SyntaxError", "Unexpected token"⟩ ∧
    (replyWorld "null").JSON_parse "null" = .ok .null ∧
    (route_interact (replyWorld "not json") loveBody).1 =
      ⟨200, .interaction (.str "Thanks!") .null⟩ ∧
    (route_interact (replyWorld "null") loveBody).1 =
      ⟨200, .interaction (.str "Thanks!") .null⟩ ∧
    (route_interact (replyWorld "not json") loveBody).2 =
      (route_interact (replyWorld "null") loveBody).2 := by
  refine ⟨by rfl, by rfl, by rfl, by rfl, by rfl⟩

/-- C2, amended: when the text returned for the context-analysis prompt
does not parse, the handler reports no error; it answers 200 with
`contextAnalysis: null` and sends the interaction prompt whose context segment
is the text `null`, which is exactly what it does when the analysis text
parses to `null` and the second reply is the same. -/
theorem interact_parse_failure_swallowed (w w2 : World) (body : Option Json)
    (m t t2 r : String) (e : JsError)
    (hBody : getProp body "userMessage" = .ok (some (.str m)))
    (hText : w.textModel_generateContent (contextAnalysisPrompt m) = .ok t)
    (hParse : w.JSON_parse t = .error e)
    (hReply : w.textModel_generateContent (interactionPrompt m "null") = .ok r)
    (hText2 : w2.textModel_generateContent (contextAnalysisPrompt m) = .ok t2)
    (hParse2 : w2.JSON_parse t2 = .ok .null)
    (hReply2 : w2.textModel_generateContent (interactionPrompt m "null") = .ok r) :
    route_interact w body = route_interact w2 body ∧
    route_interact w body =
      (⟨200, .interaction (.str r) .null⟩,
       [Call.textModel_generateContent (contextAnalysisPrompt m),
        Call.textModel_generateContent (interactionPrompt m "null")]) := by
  obtain ⟨u, hu⟩ := getProp_other body "userMessage" "userContext" _ hBody
  have hNull : JSON_stringify .null = "null" := rfl
  have h1 : route_interact w body =
      (⟨200, .interaction (.str r) .null⟩,
       [Call.textModel_generateContent (contextAnalysisPrompt m),
        Call.textModel_generateContent (interactionPrompt m "null")]) := by
    simp [route_interact, hBody, hu, analyzeUserContext, generateInteractiveResponse, toStr,
      Json.toStr, hText, hParse, hNull, hReply]
  have h2 : route_interact w2 body =
      (⟨200, .interaction (.str r) .null⟩,
       [Call.textModel_generateContent (contextAnalysisPrompt m),
        Call.textModel_generateContent (interactionPrompt m "null")]) := by
    simp [route_interact, hBody, hu, analyzeUserContext, generateInteractiveResponse, toStr,
      Json.toStr, hText2, hParse2, hNull, hReply2]
  exact ⟨h1.trans h2.symm, h1⟩

/-- Witness of C2 amended: `not json` against `null`. -/
theorem interact_parse_failure_swallowed_witness :
    route_interact (replyWorld "not json") loveBody =
      route_interact (replyWorld "null") loveBody ∧
    route_interact (replyWorld "not json") loveBody =
      (⟨200, .interaction (.str "Thanks!") .null⟩,
       [Call.textModel_generateContent (contextAnalysisPrompt "I love this!"),
        Call.textModel_generateContent (interactionPrompt "I love this!" "null")]) :=
  interact_parse_failure_swallowed (replyWorld "not json") (replyWorld "null") loveBody
    "I love this!" "not json" "null" "Thanks!" ⟨"SyntaxError", "Unexpected token"⟩
    (by rfl) (by rfl) (by rfl) (by rfl) (by rfl) (by rfl) (by rfl)

/-- C7: for every user message, if the text returned for the
context-analysis prompt parses to the value `a` and the text call for the
interaction prompt (built from the message and the serialization of `a`)
returns `r`, the handler answers 200 with `response: r` and
`contextAnalysis: a`. -/
theorem interact_success (w : World) (body : Option Json) (m t r : String) (a : Json)
    (hBody : getProp body "userMessage" = .ok (some (.str m)))
    (hText : w.textModel_generateContent (contextAnalysisPrompt m) = .ok t)
    (hParse : w.JSON_parse t = .ok a)
    (hReply : w.textModel_generateContent (interactionPrompt m (JSON_stringify a)) = .ok r) :
    (route_interact w body).1 = ⟨200, .interaction (.str r) a⟩ := by
  obtain ⟨u, hu⟩ := getProp_other body "userMessage" "userContext" _ hBody
  simp [route_interact, hBody, hu, analyzeUserContext, generateInteractiveResponse, toStr,
    Json.toStr, hText, hParse, hReply]

/-- Witness of C7: the message `I love this!`, the praise analysis, the
reply `Thanks!`. -/
theorem interact_success_witness :
    (route_interact (replyWorld praiseText) loveBody).1 =
      ⟨200, .interaction (.str "Thanks!")
        (.obj [("tone", .str "positive"), ("intent", .str "praise"), ("interests", .arr []),
          ("approach", .str "thank")])⟩ :=
  interact_success (replyWorld praiseText) loveBody "I love this!" praiseText "Thanks!"
    praiseAnalysis (by rfl) (by rfl) (by rfl) (by rfl)

/-- C10: two request bodies that agree on `userMessage` get the same
answer and cause the same outbound calls, whatever their `userContext`; for a
string message the calls are the context-analysis prompt and the interaction
prompt whose context segment is the serialization of the analysis result,
and the serialization of `null` (the result of a failed analysis) is the
text `null`.  The two prompts are the template texts around the message and
around the message and the context segment, and an object is serialized in
the compact form of `JSON.stringify`. -/
theorem interact_ignores_userContext (w : World) (b1 b2 : Option Json)
    (h : getProp b1 "userMessage" = getProp b2 "userMessage") :
    route_interact w b1 = route_interact w b2 ∧
    (∀ m, getProp b1 "userMessage" = .ok (some (.str m)) →
      ∃ a, (analyzeUserContext w (some (.str m))).1 = .ok a ∧
        (route_interact w b1).2 =
          [Call.textModel_generateContent (contextAnalysisPrompt m),
           Call.textModel_generateContent (interactionPrompt m (JSON_stringify a))]) ∧
    JSON_stringify .null = "null" ∧
    (∀ m, contextAnalysisPrompt m =
      "Analyze the following message and extract key contextual information:\n        \n        Message: "
        ++ m ++
        "\n        \n        Provide insights on:\n        - Emotional tone\n        - Primary intent\n        - Potential user interests\n        - Suggested response approach") ∧
    (∀ m segment, interactionPrompt m segment =
      "You are Nova Anderson, a Tech Innovation Consultant. \n        Respond to the following message: \x27"
        ++ m ++
        "\x27\n        \n        Context Details:\n        - User\x27s message context: "
        ++ segment ++
        "\n        - Maintain a Professional yet approachable, with a hint of tech humor tone\n        - Reference your professional interests: Sustainable Technology, Digital Wellness, Future of Work, AI Ethics") ∧
    JSON_stringify (.obj [("tone", .str "positive"), ("interests", .arr []),
        ("score", .num "1")]) =
      "\x7b\"tone\":\"positive\",\"interests\":[],\"score\":1\x7d" := by
  refine ⟨?_, ?_, rfl, contextAnalysisPrompt_eq, interactionPrompt_eq, by decide⟩
  · cases h1 : getProp b1 "userMessage" with
    | error e =>
      rw [h1] at h
      simp [route_interact, h1, ← h]
    | ok v =>
      rw [h1] at h
      obtain ⟨u1, hu1⟩ := getProp_other b1 "userMessage" "userContext" _ h1
      obtain ⟨u2, hu2⟩ := getProp_other b2 "userMessage" "userContext" _ h.symm
      simp [route_interact, h1, ← h, hu1, hu2]
  · intro m hm
    obtain ⟨u1, hu1⟩ := getProp_other b1 "userMessage" "userContext" _ hm
    cases hT : w.textModel_generateContent (contextAnalysisPrompt m) with
    | error e =>
      refine ⟨.null, by simp [analyzeUserContext, toStr, Json.toStr, hT], ?_⟩
      cases hR : w.textModel_generateContent (interactionPrompt m (JSON_stringify .null)) <;>
        simp [route_interact, hm, hu1, analyzeUserContext, generateInteractiveResponse, toStr,
          Json.toStr, hT, hR]
    | ok t =>
      cases hP : w.JSON_parse t with
      | error e =>
        refine ⟨.null, by simp [analyzeUserContext, toStr, Json.toStr, hT, hP], ?_⟩
        cases hR : w.textModel_generateContent (interactionPrompt m (JSON_stringify .null)) <;>
          simp [route_interact, hm, hu1, analyzeUserContext, generateInteractiveResponse, toStr,
            Json.toStr, hT, hP, hR]
      | ok a =>
        refine ⟨a, by simp [analyzeUserContext, toStr, Json.toStr, hT, hP], ?_⟩
        cases hR : w.textModel_generateContent (interactionPrompt m (JSON_stringify a)) <;>
          simp [route_interact, hm, hu1, analyzeUserContext, generateInteractiveResponse, toStr,
            Json.toStr, hT, hP, hR]

/-- Witness of C10: a body whose `userContext` is a string against one
whose `userContext` is an object that cannot even be converted to text. -/
theorem interact_ignores_userContext_witness :
    route_interact (replyWorld praiseText) loveBody =
      route_interact (replyWorld praiseText)
        (some (.obj [("userMessage", .str "I love this!"),
          ("userContext", .obj [("toString", .num "1")])])) :=
  (interact_ignores_userContext (replyWorld praiseText) loveBody
    (some (.obj [("userMessage", .str "I love this!"),
      ("userContext", .obj [("toString", .num "1")])])) (by rfl)).1

/-! ## Error containment -/

/-- C4, as the claim states it, fails in its part on the handlers: a
request body that is an object whose `context` (or `userMessage`) is an
object with an own `toString` property makes the string conversion in the
template literal throw before the `try` of the method, and the handler takes
its 500 branch without any remote call having failed. -/
theorem handlers_500_on_unconvertible_field :
    route_generate_post helloWorld
        (some (.obj [("context", .obj [("toString", .num "1")])])) =
      (⟨500, .error "Post generation failed"⟩, []) ∧
    route_interact helloWorld
        (some (.obj [("userMessage", .obj [("toString", .num "1")])])) =
      (⟨500, .error "Interaction failed"⟩, []) := by
  refine ⟨by rfl, by rfl⟩

/-- C4, amended: on a string input each of the five methods returns
`null` without raising when its remote call (or, in `analyzeUserContext`, the
parse) raises, and `postToTwitter` never raises at all; both handlers answer
200 with their result shape, whatever remote calls fail, for every request
body that is an object whose `context` (respectively `userMessage`) is absent
or converts to a string without error. -/
theorem provider_errors_contained (w : World) :
    (∀ c e, w.textModel_generateContent (contentPrompt c) = .error e →
      (generatePersonaContent w (some (.str c))).1 = .ok .null) ∧
    (∀ c e, w.imageModel_generateContent (imagePrompt c) = .error e →
      (generatePostImage w (some (.str c))).1 = .ok (.json .null)) ∧
    (∀ m u e, w.textModel_generateContent (interactionPrompt m u) = .error e →
      (generateInteractiveResponse w (some (.str m)) (some (.str u))).1 = .ok .null) ∧
    (∀ m e, w.textModel_generateContent (contextAnalysisPrompt m) = .error e →
      (analyzeUserContext w (some (.str m))).1 = .ok .null) ∧
    (∀ m t e, w.textModel_generateContent (contextAnalysisPrompt m) = .ok t →
      w.JSON_parse t = .error e →
      (analyzeUserContext w (some (.str m))).1 = .ok .null) ∧
    (∀ text image, ∃ r, (postToTwitter w text image).1 = .ok r) ∧
    (∀ text image e, image.truthy = true → w.uploadMedia image "image/png" = .error e →
      (postToTwitter w text image).1 = .ok (.json .null)) ∧
    (∀ text image mediaId e, image.truthy = true →
      w.uploadMedia image "image/png" = .ok mediaId →
      w.tweet ⟨text, some [mediaId]⟩ = .error e →
      (postToTwitter w text image).1 = .ok (.json .null)) ∧
    (∀ text image e, image.truthy = false → w.tweet ⟨text, none⟩ = .error e →
      (postToTwitter w text image).1 = .ok (.json .null)) ∧
    (∀ props s, toStr (props.lookup "context") = .ok s →
      (route_generate_post w (some (.obj props))).1.status = 200 ∧
      ∃ content imageGenerated tweetPosted,
        (route_generate_post w (some (.obj props))).1.body =
          .postResult content imageGenerated tweetPosted) ∧
    (∀ props s, toStr (props.lookup "userMessage") = .ok s →
      (route_interact w (some (.obj props))).1.status = 200 ∧
      ∃ response contextAnalysis,
        (route_interact w (some (.obj props))).1.body =
          .interaction response contextAnalysis) := by
  refine ⟨?_, ?_, ?_, ?_, ?_, postToTwitter_ok w, ?_, ?_, ?_, ?_, ?_⟩
  · intro c e h
    simp [generatePersonaContent, toStr, Json.toStr, h]
  · intro c e h
    simp [generatePostImage, toStr, Json.toStr, h]
  · intro m u e h
    simp [generateInteractiveResponse, toStr, Json.toStr, h]
  · intro m e h
    simp [analyzeUserContext, toStr, Json.toStr, h]
  · intro m t e h hp
    simp [analyzeUserContext, toStr, Json.toStr, h, hp]
  · intro text image e hTruthy hUpload
    cases image with
    | undefined => simp [JsVal.truthy] at hTruthy
    | json j => simp [postToTwitter, hTruthy, hUpload]
    | bytes d => simp [postToTwitter, hTruthy, hUpload]
  · intro text image mediaId e hTruthy hUpload hTweet
    cases image with
    | undefined => simp [JsVal.truthy] at hTruthy
    | json j => simp [postToTwitter, hTruthy, hUpload, hTweet]
    | bytes d => simp [postToTwitter, hTruthy, hUpload, hTweet]
  · intro text image e hFalsy hTweet
    cases image with
    | undefined => simp [postToTwitter, JsVal.truthy, Json.truthy, hTweet]
    | json j => simp [postToTwitter, hFalsy, hTweet]
    | bytes d => simp [JsVal.truthy] at hFalsy
  · intro props s hs
    simp only [route_generate_post, getProp, generatePersonaContent, generatePostImage, hs]
    cases hT : w.textModel_generateContent (contentPrompt s) <;>
      cases hI : w.imageModel_generateContent (imagePrompt s) <;>
      simp only [] <;>
      [obtain ⟨r, h2⟩ := postToTwitter_ok w .null (.json .null);
       obtain ⟨r, h2⟩ := postToTwitter_ok w .null ‹JsVal›;
       obtain ⟨r, h2⟩ := postToTwitter_ok w (.str ‹String›) (.json .null);
       obtain ⟨r, h2⟩ := postToTwitter_ok w (.str ‹String›) ‹JsVal›] <;>
      · generalize hp : postToTwitter w _ _ = p at h2 ⊢
        obtain ⟨p1, p2⟩ := p
        simp only at h2
        subst h2
        simp
  · intro props s hs
    cases hT : w.textModel_generateContent (contextAnalysisPrompt s) with
    | error e =>
      cases hR : w.textModel_generateContent (interactionPrompt s (JSON_stringify .null)) <;>
        simp [route_interact, getProp, analyzeUserContext, generateInteractiveResponse, hs,
          toStr_str, hT, hR]
    | ok t =>
      cases hP : w.JSON_parse t with
      | error e =>
        cases hR : w.textModel_generateContent (interactionPrompt s (JSON_stringify .null)) <;>
          simp [route_interact, getProp, analyzeUserContext, generateInteractiveResponse, hs,
            toStr_str, hT, hP, hR]
      | ok a =>
        cases hR : w.textModel_generateContent (interactionPrompt s (JSON_stringify a)) <;>
          simp [route_interact, getProp, analyzeUserContext, generateInteractiveResponse, hs,
            toStr_str, hT, hP, hR]

/-- Witness of C4 amended: with every remote call and the parse failing,
the methods return `null` and both handlers answer 200. -/
theorem provider_errors_contained_witness :
    (generatePersonaContent downWorld (some (.str "AI"))).1 = .ok .null ∧
    (analyzeUserContext downWorld (some (.str "I love this!"))).1 = .ok .null ∧
    (postToTwitter downWorld (.str "Hello world") (.bytes [137, 80, 78])).1 =
      .ok (.json .null) ∧
    (route_generate_post downWorld (some (.obj [("context", .str "AI")]))).1.status = 200 ∧
    (route_interact downWorld (some (.obj [("userMessage", .str "I love this!")]))).1.status
      = 200 :=
  ⟨(provider_errors_contained downWorld).1 "AI" ⟨"Error", "fetch failed"⟩ rfl,
   (provider_errors_contained downWorld).2.2.2.1 "I love this!" ⟨"Error", "fetch failed"⟩ rfl,
   (provider_errors_contained downWorld).2.2.2.2.2.2.1 (.str "Hello world")
     (.bytes [137, 80, 78]) ⟨"ApiRequestError", "Request failed"⟩ rfl rfl,
   ((provider_errors_contained downWorld).2.2.2.2.2.2.2.2.2.1 [("context", .str "AI")] "AI"
     rfl).1,
   ((provider_errors_contained downWorld).2.2.2.2.2.2.2.2.2.2
     [("userMessage", .str "I love this!")] "I love this!" rfl).1⟩

end Server
